import Mathlib

/-!
Verification development for the Idea-Box API (src/main.go).

The program is a Gin + GORM CRUD service over two SQLite tables: boxes and
ideas, where ideas.box_id references boxes.id.  We model the database as
explicit lists of rows plus auto-increment counters, and each HTTP handler of
main.go as a pure function from (store, path parameters, request body) to a
handler result (status code plus body, or status code plus error message) and,
for mutating handlers, the successor store.

Library semantics embedded here, with the source call they translate:
  - gin ShouldBindJSON with a field tagged binding:"required" rejects a body
    whose field is absent or the zero value (empty string) with a 400 error;
  - GORM First(&x, "id = ?", v) returns the first row matching the condition,
    or an error when none matches;
  - GORM Updates with a STRUCT argument updates only the non-zero fields of
    that struct (documented GORM behavior: when updating with a struct it will
    only update non-zero fields) and assigns the updated values back onto the
    model in memory;
  - GORM Create appends a row with a fresh auto-increment id and writes the id
    back into the model;
  - GORM Delete removes the rows matching the condition (the model's primary
    key, or an explicit Where clause).
-/

/-- Row of the boxes table (struct Box of main.go, lines 14-19).  The Ideas
association field is a GORM relation, not a column: it is represented by the
ideas table, queried through Preload. -/
structure Box where
  id : Nat
  title : String
  description : String
deriving Repr, DecidableEq

/-- Row of the ideas table (struct Idea of main.go, lines 21-27).  The Box
back-reference field is a GORM relation, not a column. -/
structure Idea where
  id : Nat
  title : String
  description : String
  boxId : Nat
deriving Repr, DecidableEq

/-- Database state: the two tables plus the auto-increment counters. -/
structure Store where
  boxes : List Box
  ideas : List Idea
  nextBoxId : Nat
  nextIdeaId : Nat
deriving Repr, DecidableEq

/-- Bound request body for Box endpoints (struct BoxRequest, lines 29-32). -/
structure BoxRequest where
  title : String
  description : String
deriving Repr, DecidableEq

/-- Bound request body for Idea endpoints (struct IdeaRequest, lines 34-37). -/
structure IdeaRequest where
  title : String
  description : String
deriving Repr, DecidableEq

/-- Response body for an Idea (struct IdeaResponse, lines 46-50): only id,
title and description, no back-reference to the Box. -/
structure IdeaResponse where
  id : Nat
  title : String
  description : String
deriving Repr, DecidableEq

/-- Response body for a Box (struct BoxResponse, lines 39-44). -/
structure BoxResponse where
  id : Nat
  title : String
  description : String
  ideas : List IdeaResponse
deriving Repr, DecidableEq

/-- Raw JSON body as received: each field present or absent.  The value none
for the whole body stands for unparseable JSON. -/
structure RawBody where
  title : Option String
  description : Option String
deriving Repr, DecidableEq

/-- Outcome of a handler: success with a status code and body, or failure with
a status code and the error message put under the error key. -/
inductive HandlerResult (α : Type) where
  | success : Nat → α → HandlerResult α
  | failure : Nat → String → HandlerResult α
deriving Repr, DecidableEq

/-- gin ShouldBindJSON into BoxRequest: fails on unparseable JSON and on a
missing or empty title (binding:"required" rejects the zero value); a missing
description binds to the empty string. -/
def bindBoxRequest (raw : Option RawBody) : Option BoxRequest :=
  match raw with
  | none => none
  | some r =>
    match r.title with
    | none => none
    | some t => if t = "" then none else some ⟨t, r.description.getD ""⟩

/-- gin ShouldBindJSON into IdeaRequest, same binding rules. -/
def bindIdeaRequest (raw : Option RawBody) : Option IdeaRequest :=
  match raw with
  | none => none
  | some r =>
    match r.title with
    | none => none
    | some t => if t = "" then none else some ⟨t, r.description.getD ""⟩

/-- db.First(&box, "id = ?", id): first boxes row whose id matches. -/
def Store.findBox (s : Store) (id : Nat) : Option Box :=
  s.boxes.find? (fun b => b.id == id)

/-- db.Where("id = ? AND box_id = ?", ideaId, boxId).First(&idea): first ideas
row matching both the idea id and the parent box id (scoped lookup). -/
def Store.findIdeaIn (s : Store) (ideaId boxId : Nat) : Option Idea :=
  s.ideas.find? (fun i => i.id == ideaId && i.boxId == boxId)

/-- Preload("Ideas") for one box: all ideas rows whose box_id matches. -/
def Store.childIdeas (s : Store) (boxId : Nat) : List Idea :=
  s.ideas.filter (fun i => i.boxId == boxId)

/-- One IdeaResponse from an ideas row. -/
def toIdeaResponse (i : Idea) : IdeaResponse :=
  { id := i.id, title := i.title, description := i.description }

/-- The idea-response loop of the handlers: starts from make([]IdeaResponse, 0)
and appends one response per row. -/
def ideaResponsesFor (ideas : List Idea) : List IdeaResponse :=
  ideas.foldl (fun acc i => acc ++ [toIdeaResponse i]) []

/-- getBoxes handler (lines 78-108): lists every box with its preloaded ideas;
the responses slice starts from make([]BoxResponse, 0) and is appended to. -/
def getBoxes (s : Store) : HandlerResult (List BoxResponse) :=
  let responses := s.boxes.foldl
    (fun acc box =>
      acc ++ [{ id := box.id, title := box.title, description := box.description,
                ideas := ideaResponsesFor (s.childIdeas box.id) }]) []
  .success 200 responses

/-- getBox handler (lines 110-137). -/
def getBox (s : Store) (id : Nat) : HandlerResult BoxResponse :=
  match s.findBox id with
  | none => .failure 404 "box not found"
  | some box =>
    .success 200
      { id := box.id, title := box.title, description := box.description,
        ideas := ideaResponsesFor (s.childIdeas box.id) }

/-- createBox handler (lines 139-162): bind, insert with a fresh id, answer
201 with an empty ideas list. -/
def createBox (s : Store) (raw : Option RawBody) :
    HandlerResult BoxResponse × Store :=
  match bindBoxRequest raw with
  | none => (.failure 400 "binding error", s)
  | some request =>
    let box : Box :=
      { id := s.nextBoxId, title := request.title, description := request.description }
    (.success 201
      { id := box.id, title := box.title, description := box.description, ideas := [] },
     { s with boxes := s.boxes ++ [box], nextBoxId := s.nextBoxId + 1 })

/-- db.Model(&box).Updates(BoxRequest{...}): GORM updates only the non-zero
fields of the struct argument, so an empty title or description is skipped and
the stored value kept; updated values are assigned back onto the model. -/
def applyBoxUpdates (b : Box) (request : BoxRequest) : Box :=
  { b with
    title := if request.title = "" then b.title else request.title,
    description := if request.description = "" then b.description else request.description }

/-- db.Model(&idea).Updates(IdeaRequest{...}), same struct-update semantics. -/
def applyIdeaUpdates (i : Idea) (request : IdeaRequest) : Idea :=
  { i with
    title := if request.title = "" then i.title else request.title,
    description := if request.description = "" then i.description else request.description }

/-- updateBox handler (lines 164-197): bind, look the box up, issue the
struct Updates (UPDATE boxes SET ... WHERE id = box.ID), answer 200 with the
in-memory model after the update and an empty ideas list. -/
def updateBox (s : Store) (id : Nat) (raw : Option RawBody) :
    HandlerResult BoxResponse × Store :=
  match bindBoxRequest raw with
  | none => (.failure 400 "binding error", s)
  | some request =>
    match s.findBox id with
    | none => (.failure 404 "box not found", s)
    | some box =>
      let updated := applyBoxUpdates box request
      (.success 200
        { id := updated.id, title := updated.title, description := updated.description,
          ideas := [] },
       { s with boxes :=
          s.boxes.map fun x => if x.id == box.id then applyBoxUpdates x request else x })

/-- db.Where("box_id = ?", id).Delete(&Idea{}) as a fallible primitive: on a
storage failure the table is left unchanged and an error is returned in the
result object; on success the matching rows are removed. -/
def deleteIdeasWhere (s : Store) (boxId : Nat) (fails : Bool) :
    Store × Except String Unit :=
  if fails then (s, .error "storage error")
  else ({ s with ideas := s.ideas.filter (fun i => !(i.boxId == boxId)) }, .ok ())

/-- deleteBox handler (lines 199-217), parameterized by whether the child-idea
deletion primitive fails.  Line 208 discards the result object of that call,
so the handler never inspects the Except component and proceeds to delete the
box either way. -/
def deleteBoxWithFault (s : Store) (id : Nat) (ideaDeleteFails : Bool) :
    HandlerResult Unit × Store :=
  match s.findBox id with
  | none => (.failure 404 "box not found", s)
  | some box =>
    let afterIdeas := (deleteIdeasWhere s id ideaDeleteFails).1
    let afterBox :=
      { afterIdeas with boxes := afterIdeas.boxes.filter (fun b => !(b.id == box.id)) }
    (.success 204 (), afterBox)

/-- deleteBox handler on the fault-free path. -/
def deleteBox (s : Store) (id : Nat) : HandlerResult Unit × Store :=
  deleteBoxWithFault s id false

/-- getBoxIdeas handler (lines 219-245). -/
def getBoxIdeas (s : Store) (boxId : Nat) : HandlerResult (List IdeaResponse) :=
  match s.findBox boxId with
  | none => .failure 404 "box not found"
  | some _ => .success 200 (ideaResponsesFor (s.childIdeas boxId))

/-- getBoxIdea handler (lines 247-270): box lookup first (404 box not found),
then the scoped idea lookup (404 idea not found). -/
def getBoxIdea (s : Store) (boxId ideaId : Nat) : HandlerResult IdeaResponse :=
  match s.findBox boxId with
  | none => .failure 404 "box not found"
  | some _ =>
    match s.findIdeaIn ideaId boxId with
    | none => .failure 404 "idea not found"
    | some idea => .success 200 (toIdeaResponse idea)

/-- createBoxIdea handler (lines 272-306): bind first, then the box lookup,
then insert the idea with BoxID set to the parent. -/
def createBoxIdea (s : Store) (boxId : Nat) (raw : Option RawBody) :
    HandlerResult IdeaResponse × Store :=
  match bindIdeaRequest raw with
  | none => (.failure 400 "binding error", s)
  | some request =>
    match s.findBox boxId with
    | none => (.failure 404 "box not found", s)
    | some box =>
      let idea : Idea :=
        { id := s.nextIdeaId, title := request.title,
          description := request.description, boxId := box.id }
      (.success 201 (toIdeaResponse idea),
       { s with ideas := s.ideas ++ [idea], nextIdeaId := s.nextIdeaId + 1 })

/-- updateBoxIdea handler (lines 308-347): bind first, box lookup, scoped idea
lookup, then the struct Updates (UPDATE ideas SET ... WHERE id = idea.ID). -/
def updateBoxIdea (s : Store) (boxId ideaId : Nat) (raw : Option RawBody) :
    HandlerResult IdeaResponse × Store :=
  match bindIdeaRequest raw with
  | none => (.failure 400 "binding error", s)
  | some request =>
    match s.findBox boxId with
    | none => (.failure 404 "box not found", s)
    | some _ =>
      match s.findIdeaIn ideaId boxId with
      | none => (.failure 404 "idea not found", s)
      | some idea =>
        let updated := applyIdeaUpdates idea request
        (.success 200 (toIdeaResponse updated),
         { s with ideas :=
            s.ideas.map fun x => if x.id == idea.id then applyIdeaUpdates x request else x })

/-- deleteBoxIdea handler (lines 349-372). -/
def deleteBoxIdea (s : Store) (boxId ideaId : Nat) : HandlerResult Unit × Store :=
  match s.findBox boxId with
  | none => (.failure 404 "box not found", s)
  | some _ =>
    match s.findIdeaIn ideaId boxId with
    | none => (.failure 404 "idea not found", s)
    | some idea =>
      (.success 204 (),
       { s with ideas := s.ideas.filter (fun i => !(i.id == idea.id)) })

/-- Well-formed store: primary keys are unique in each table and every row's
id is below the auto-increment counter.  Every state reachable from the empty
database through the handlers satisfies this. -/
def Store.WF (s : Store) : Prop :=
  s.boxes.Pairwise (fun a b => a.id ≠ b.id) ∧
  s.ideas.Pairwise (fun a b => a.id ≠ b.id) ∧
  (∀ b ∈ s.boxes, b.id < s.nextBoxId) ∧
  (∀ i ∈ s.ideas, i.id < s.nextIdeaId)

instance (s : Store) : Decidable s.WF := by
  unfold Store.WF; infer_instance

/-! Helper lemmas about the embedded query primitives. -/

theorem foldl_append_eq_map {α β : Type} (f : α → β) (l : List α) (acc : List β) :
    l.foldl (fun a x => a ++ [f x]) acc = acc ++ l.map f := by
  induction l generalizing acc with
  | nil => simp
  | cons x xs ih => simp [List.foldl, ih]

theorem ideaResponsesFor_eq_map (ideas : List Idea) :
    ideaResponsesFor ideas = ideas.map toIdeaResponse := by
  simpa using foldl_append_eq_map toIdeaResponse ideas []

theorem find?_id_of_mem {α : Type} (idf : α → Nat) {l : List α} {a : α}
    (hp : l.Pairwise (fun x y => idf x ≠ idf y)) (ha : a ∈ l) :
    l.find? (fun x => idf x == idf a) = some a := by
  induction l with
  | nil => cases ha
  | cons x xs ih =>
    rcases List.mem_cons.mp ha with rfl | hmem
    · exact List.find?_cons_of_pos _ (by simp)
    · have h1 : idf x ≠ idf a := (List.pairwise_cons.mp hp).1 a hmem
      rw [List.find?_cons_of_neg _ (by simp [h1])]
      exact ih (List.pairwise_cons.mp hp).2 hmem

theorem eq_of_mem_of_pairwise_id {α : Type} (idf : α → Nat) {l : List α}
    (hp : l.Pairwise (fun x y => idf x ≠ idf y)) {a b : α}
    (ha : a ∈ l) (hb : b ∈ l) (h : idf a = idf b) : a = b := by
  induction l with
  | nil => cases ha
  | cons x xs ih =>
    rcases List.mem_cons.mp ha with rfl | hma
    · rcases List.mem_cons.mp hb with rfl | hmb
      · rfl
      · exact absurd h ((List.pairwise_cons.mp hp).1 b hmb)
    · rcases List.mem_cons.mp hb with rfl | hmb
      · exact absurd h.symm ((List.pairwise_cons.mp hp).1 a hma)
      · exact ih (List.pairwise_cons.mp hp).2 hma hmb

theorem findBox_of_mem {s : Store} {b : Box} (hwf : s.WF) (hb : b ∈ s.boxes) :
    s.findBox b.id = some b :=
  find?_id_of_mem Box.id hwf.1 hb

theorem findBox_eq_none {s : Store} {id : Nat} (h : ∀ b ∈ s.boxes, b.id ≠ id) :
    s.findBox id = none :=
  List.find?_eq_none.mpr (fun b hb => by simpa using h b hb)

/-! Concrete stores used to instantiate the theorems. -/

/-- Box row used by the concrete instances. -/
def exBox : Box := { id := 1, title := "Travel", description := "Summer trips" }

/-- Idea row used by the concrete instances, child of exBox. -/
def exIdea : Idea := { id := 1, title := "Visit Kyoto", description := "", boxId := 1 }

/-- Concrete store with one box and one child idea. -/
def exStore : Store := { boxes := [exBox], ideas := [exIdea], nextBoxId := 2, nextIdeaId := 2 }

/-- Update request whose description field is present but empty. -/
def emptyDescRaw : RawBody := { title := some "Travel renamed", description := some "" }

/-- C1 counterexample: the box with id 1 stores description "Summer trips";
the update request carries title "Travel renamed" and an EMPTY description.
The claim says the empty description clears the stored description.  Instead
GORM's struct Updates skips the zero-valued description field: after the
update the stored description is still "Summer trips" and the 200 response
echoes it, so the description is not cleared. -/
theorem updateBox_empty_description_kept :
    (updateBox exStore 1 (some emptyDescRaw)).2.findBox 1 =
      some { id := 1, title := "Travel renamed", description := "Summer trips" } ∧
    (updateBox exStore 1 (some emptyDescRaw)).1 =
      .success 200
        { id := 1, title := "Travel renamed", description := "Summer trips", ideas := [] } ∧
    ¬ (updateBox exStore 1 (some emptyDescRaw)).2.findBox 1 =
      some { id := 1, title := "Travel renamed", description := "" } := by
  decide

/-- C1 (amended): for every stored box and every bound update request, the
update overwrites the Title (the binding guarantees it non-empty) but applies
the Description only when it is non-empty: a request carrying an empty or
missing Description leaves the stored Description unchanged, because GORM's
struct-based Updates skips zero-value fields.  The 200 response reflects the
row after this partial overwrite, with an empty ideas list. -/
theorem updateBox_overwrite_semantics (s : Store) (b : Box) (r : RawBody) (t : String)
    (hwf : s.WF) (hb : b ∈ s.boxes) (ht : r.title = some t) (htne : t ≠ "") :
    updateBox s b.id (some r) =
      (.success 200
        { id := b.id, title := t,
          description :=
            if r.description.getD "" = "" then b.description else r.description.getD "",
          ideas := [] },
       { s with boxes := s.boxes.map fun x =>
          if x.id == b.id then
            { x with
              title := t,
              description :=
                if r.description.getD "" = "" then x.description else r.description.getD "" }
          else x }) := by
  have hfind : s.findBox b.id = some b := findBox_of_mem hwf hb
  have hbind : bindBoxRequest (some r) = some ⟨t, r.description.getD ""⟩ := by
    simp [bindBoxRequest, ht, htne]
  have hfun : (fun x => if x.id == b.id then applyBoxUpdates x ⟨t, r.description.getD ""⟩ else x)
      = (fun x : Box => if x.id == b.id then
          { x with
            title := t,
            description :=
              if r.description.getD "" = "" then x.description else r.description.getD "" }
        else x) := by
    funext x
    simp [applyBoxUpdates, htne]
  simp [updateBox, hbind, hfind, applyBoxUpdates, htne, hfun]

/-- Witness for the amended C1 theorem at the concrete store. -/
theorem updateBox_overwrite_semantics_witness :
    updateBox exStore exBox.id (some emptyDescRaw) =
      (.success 200
        { id := exBox.id, title := "Travel renamed",
          description :=
            if emptyDescRaw.description.getD "" = "" then exBox.description
            else emptyDescRaw.description.getD "",
          ideas := [] },
       { exStore with boxes := exStore.boxes.map fun x =>
          if x.id == exBox.id then
            { x with
              title := "Travel renamed",
              description :=
                if emptyDescRaw.description.getD "" = "" then x.description
                else emptyDescRaw.description.getD "" }
          else x }) :=
  updateBox_overwrite_semantics exStore exBox emptyDescRaw "Travel renamed"
    (by decide) (by decide) (by decide) (by decide)

/-- C2: deleting a stored box answers 204 and removes the box and every idea
whose box_id is the box's id: afterwards getBox on that id is 404 "box not
found", getBoxIdea on that id is 404 "box not found" for every idea id, no
remaining idea references the deleted box, and the referential-integrity
invariant (every idea's box_id names a stored box) is preserved. -/
theorem deleteBox_cascades (s : Store) (b : Box) (hwf : s.WF) (hb : b ∈ s.boxes) :
    (deleteBox s b.id).1 = .success 204 () ∧
    getBox (deleteBox s b.id).2 b.id = .failure 404 "box not found" ∧
    (∀ ideaId, getBoxIdea (deleteBox s b.id).2 b.id ideaId = .failure 404 "box not found") ∧
    (∀ i ∈ (deleteBox s b.id).2.ideas, i.boxId ≠ b.id) ∧
    ((∀ i ∈ s.ideas, ∃ bx ∈ s.boxes, bx.id = i.boxId) →
      ∀ i ∈ (deleteBox s b.id).2.ideas, ∃ bx ∈ (deleteBox s b.id).2.boxes, bx.id = i.boxId) := by
  have hfind : s.findBox b.id = some b := findBox_of_mem hwf hb
  have hdel : deleteBox s b.id =
      (.success 204 (),
       { s with
         boxes := s.boxes.filter (fun x => !(x.id == b.id)),
         ideas := s.ideas.filter (fun i => !(i.boxId == b.id)) }) := by
    simp [deleteBox, deleteBoxWithFault, hfind, deleteIdeasWhere]
  rw [hdel]
  have hnone :
      (Store.mk (s.boxes.filter (fun x => !(x.id == b.id)))
        (s.ideas.filter (fun i => !(i.boxId == b.id))) s.nextBoxId s.nextIdeaId).findBox b.id
        = none := by
    apply findBox_eq_none
    intro x hx
    have hmem := List.mem_filter.mp hx
    simpa using hmem.2
  refine ⟨rfl, ?_, ?_, ?_, ?_⟩
  · simp [getBox]
    rw [hnone]
  · intro ideaId
    simp [getBoxIdea]
    rw [hnone]
  · intro i hi
    have hmem := List.mem_filter.mp hi
    simpa using hmem.2
  · intro hint i hi
    have hmem := List.mem_filter.mp hi
    obtain ⟨bx, hbx, hbxid⟩ := hint i hmem.1
    refine ⟨bx, List.mem_filter.mpr ⟨hbx, ?_⟩, hbxid⟩
    have : i.boxId ≠ b.id := by simpa using hmem.2
    simp [hbxid, this]

/-- Witness for C2 at the concrete store. -/
theorem deleteBox_cascades_witness :
    (deleteBox exStore exBox.id).1 = .success 204 () ∧
    getBox (deleteBox exStore exBox.id).2 exBox.id = .failure 404 "box not found" ∧
    (∀ ideaId,
      getBoxIdea (deleteBox exStore exBox.id).2 exBox.id ideaId = .failure 404 "box not found") ∧
    (∀ i ∈ (deleteBox exStore exBox.id).2.ideas, i.boxId ≠ exBox.id) ∧
    ((∀ i ∈ exStore.ideas, ∃ bx ∈ exStore.boxes, bx.id = i.boxId) →
      ∀ i ∈ (deleteBox exStore exBox.id).2.ideas,
        ∃ bx ∈ (deleteBox exStore exBox.id).2.boxes, bx.id = i.boxId) :=
  deleteBox_cascades exStore exBox (by decide) (by decide)

theorem findIdeaIn_eq_none {s : Store} {ideaId boxId : Nat}
    (h : ∀ i ∈ s.ideas, ¬(i.id = ideaId ∧ i.boxId = boxId)) :
    s.findIdeaIn ideaId boxId = none := by
  apply List.find?_eq_none.mpr
  intro i hi
  have := h i hi
  simp only [Bool.and_eq_true, beq_iff_eq]
  tauto

/-- C3: createBox with a body whose title is missing or empty fails with the
400 binding error and leaves the store unchanged; with a non-empty title it
answers 201 with the created representation (fresh id, bound title and
description, empty ideas list) and the returned id is usable in a subsequent
getBox, which answers 200 with the same title and description. -/
theorem createBox_spec (s : Store) (raw : Option RawBody) (hwf : s.WF) :
    (∀ r, raw = some r → (r.title = none ∨ r.title = some "") →
      createBox s raw = (.failure 400 "binding error", s)) ∧
    (∀ r t, raw = some r → r.title = some t → t ≠ "" →
      (createBox s raw).1 =
        .success 201
          { id := s.nextBoxId, title := t, description := r.description.getD "",
            ideas := [] } ∧
      ∃ ideas, getBox (createBox s raw).2 s.nextBoxId =
        .success 200
          { id := s.nextBoxId, title := t, description := r.description.getD "",
            ideas := ideas }) := by
  constructor
  · rintro r rfl (h | h) <;> simp [createBox, bindBoxRequest, h]
  · rintro r t rfl ht htne
    have hbind : bindBoxRequest (some r) = some ⟨t, r.description.getD ""⟩ := by
      simp [bindBoxRequest, ht, htne]
    have holdnone : s.boxes.find? (fun x => x.id == s.nextBoxId) = none := by
      apply List.find?_eq_none.mpr
      intro x hx
      have := hwf.2.2.1 x hx
      simp only [beq_iff_eq]
      omega
    have hfindnew : ((createBox s (some r)).2).findBox s.nextBoxId =
        some { id := s.nextBoxId, title := t, description := r.description.getD "" } := by
      simp only [createBox, hbind, Store.findBox]
      rw [List.find?_append, holdnone]
      simp
    refine ⟨by simp [createBox, hbind],
      ⟨ideaResponsesFor (((createBox s (some r)).2).childIdeas s.nextBoxId), ?_⟩⟩
    unfold getBox
    rw [hfindnew]

/-- Witness for C3: the empty-title body is rejected with the store unchanged,
and a body titled "Travel" is created and readable through getBox. -/
theorem createBox_spec_witness :
    (createBox exStore (some { title := some "", description := none }) =
      (.failure 400 "binding error", exStore)) ∧
    (createBox exStore (some { title := some "Travel", description := none })).1 =
      .success 201 { id := 2, title := "Travel", description := "", ideas := [] } ∧
    ∃ ideas, getBox (createBox exStore (some { title := some "Travel", description := none })).2 2 =
      .success 200 { id := 2, title := "Travel", description := "", ideas := ideas } := by
  have h := createBox_spec exStore (some { title := some "Travel", description := none })
    (by decide)
  have h2 := createBox_spec exStore (some { title := some "", description := none })
    (by decide)
  refine ⟨h2.1 _ rfl (Or.inr rfl), h.2 _ "Travel" rfl rfl (by decide)⟩

/-- C4: a createBoxIdea request naming a box id that is not stored leaves the
store unchanged whatever the body, and when the body binds it fails with 404
"box not found": no idea row is created. -/
theorem createBoxIdea_absent_box (s : Store) (boxId : Nat) (raw : Option RawBody)
    (habs : s.findBox boxId = none) :
    (createBoxIdea s boxId raw).2 = s ∧
    (∀ request, bindIdeaRequest raw = some request →
      createBoxIdea s boxId raw = (.failure 404 "box not found", s)) := by
  constructor
  · cases hb : bindIdeaRequest raw <;> simp [createBoxIdea, hb, habs]
  · intro request hreq
    simp [createBoxIdea, hreq, habs]

/-- Witness for C4 at the concrete store: box id 7 is absent. -/
theorem createBoxIdea_absent_box_witness :
    (createBoxIdea exStore 7 (some { title := some "Surf", description := none })).2 = exStore ∧
    (∀ request,
      bindIdeaRequest (some { title := some "Surf", description := none }) = some request →
      createBoxIdea exStore 7 (some { title := some "Surf", description := none }) =
        (.failure 404 "box not found", exStore)) :=
  createBoxIdea_absent_box exStore 7 (some { title := some "Surf", description := none })
    (by decide)

/-- C5: getBoxIdea answers 404 "box not found" when the box id is absent; when
the box exists and no stored idea has both the requested idea id and the
requested box id it answers 404 with the distinct message "idea not found";
in particular, in a well-formed store, an existing idea requested through the
wrong parent box id (its box_id differs from the requested box id) yields the
"idea not found" 404. -/
theorem getBoxIdea_spec (s : Store) (boxId ideaId : Nat) :
    (s.findBox boxId = none → getBoxIdea s boxId ideaId = .failure 404 "box not found") ∧
    ((∃ b, s.findBox boxId = some b) →
      (∀ i ∈ s.ideas, ¬(i.id = ideaId ∧ i.boxId = boxId)) →
      getBoxIdea s boxId ideaId = .failure 404 "idea not found") ∧
    (s.WF → (∃ b, s.findBox boxId = some b) →
      ∀ i ∈ s.ideas, i.id = ideaId → i.boxId ≠ boxId →
      getBoxIdea s boxId ideaId = .failure 404 "idea not found") := by
  refine ⟨fun h => by simp [getBoxIdea, h], ?_, ?_⟩
  · rintro ⟨b, hb⟩ hno
    simp [getBoxIdea, hb, findIdeaIn_eq_none hno]
  · rintro hwf ⟨b, hb⟩ i hi hid hbox
    have hno : ∀ j ∈ s.ideas, ¬(j.id = ideaId ∧ j.boxId = boxId) := by
      rintro j hj ⟨hjid, hjbox⟩
      have hji : j = i :=
        eq_of_mem_of_pairwise_id Idea.id hwf.2.1 hj hi (by rw [hjid, hid])
      subst hji
      exact hbox hjbox
    simp [getBoxIdea, hb, findIdeaIn_eq_none hno]

/-- Concrete store for the idea-box mismatch scenario: two boxes, and idea 1
belongs to box 1. -/
def mismatchStore : Store :=
  { boxes := [exBox, { id := 2, title := "Work", description := "" }],
    ideas := [exIdea], nextBoxId := 3, nextIdeaId := 2 }

/-- Witness for C5: box 7 absent; box 1 present with no idea of id 9; and the
mismatch case, the existing idea 1 of box 1 requested through box 2. -/
theorem getBoxIdea_spec_witness :
    (getBoxIdea exStore 7 1 = .failure 404 "box not found") ∧
    (getBoxIdea exStore 1 9 = .failure 404 "idea not found") ∧
    (getBoxIdea mismatchStore 2 1 = .failure 404 "idea not found") := by
  have h7 := getBoxIdea_spec exStore 7 1
  have h9 := getBoxIdea_spec exStore 1 9
  have hm := getBoxIdea_spec mismatchStore 2 1
  refine ⟨h7.1 (by decide), h9.2.1 ⟨exBox, by decide⟩ (by decide), ?_⟩
  exact hm.2.2 (by decide) ⟨{ id := 2, title := "Work", description := "" }, by decide⟩
    exIdea (by decide) (by decide) (by decide)

/-- C6: for every box stored in a well-formed store, getBox on its id answers
200 with exactly the stored title and description, and the ideas list of the
response contains an entry precisely for each stored idea whose box_id is the
box's id (set equality, no order constraint). -/
theorem getBox_returns_stored (s : Store) (b : Box) (hwf : s.WF) (hb : b ∈ s.boxes) :
    ∃ ideas, getBox s b.id = .success 200
        { id := b.id, title := b.title, description := b.description, ideas := ideas } ∧
      ∀ ir, ir ∈ ideas ↔ ∃ i ∈ s.ideas, i.boxId = b.id ∧ toIdeaResponse i = ir := by
  have hfind : s.findBox b.id = some b := findBox_of_mem hwf hb
  refine ⟨ideaResponsesFor (s.childIdeas b.id), ?_, ?_⟩
  · unfold getBox
    rw [hfind]
  · intro ir
    rw [ideaResponsesFor_eq_map]
    simp only [List.mem_map, Store.childIdeas, List.mem_filter, beq_iff_eq]
    constructor
    · rintro ⟨i, ⟨hi, hbox⟩, hir⟩
      exact ⟨i, hi, hbox, hir⟩
    · rintro ⟨i, hi, hbox, hir⟩
      exact ⟨i, ⟨hi, hbox⟩, hir⟩

/-- Witness for C6 at the concrete store. -/
theorem getBox_returns_stored_witness :
    ∃ ideas, getBox exStore exBox.id = .success 200
        { id := exBox.id, title := exBox.title, description := exBox.description,
          ideas := ideas } ∧
      ∀ ir, ir ∈ ideas ↔ ∃ i ∈ exStore.ideas, i.boxId = exBox.id ∧ toIdeaResponse i = ir :=
  getBox_returns_stored exStore exBox (by decide) (by decide)

/-- C7: getBoxes answers 200 with one response per stored box, in store order,
each carrying the box's id, title and description and the responses (id, title,
description only) of exactly its child ideas; a box with no child ideas
carries the empty list. -/
theorem getBoxes_spec (s : Store) :
    getBoxes s = .success 200 (s.boxes.map fun b =>
      { id := b.id, title := b.title, description := b.description,
        ideas := (s.childIdeas b.id).map toIdeaResponse }) ∧
    (∀ b ∈ s.boxes, (∀ i ∈ s.ideas, i.boxId ≠ b.id) →
      ∃ body, getBoxes s = .success 200 body ∧
        ({ id := b.id, title := b.title, description := b.description,
           ideas := ([] : List IdeaResponse) } : BoxResponse) ∈ body) := by
  have hmain : getBoxes s = .success 200 (s.boxes.map fun b =>
      { id := b.id, title := b.title, description := b.description,
        ideas := (s.childIdeas b.id).map toIdeaResponse }) := by
    unfold getBoxes
    rw [foldl_append_eq_map (fun box : Box =>
      ({ id := box.id, title := box.title, description := box.description,
         ideas := ideaResponsesFor (s.childIdeas box.id) } : BoxResponse))]
    simp [ideaResponsesFor_eq_map]
  refine ⟨hmain, ?_⟩
  intro b hb hno
  refine ⟨_, hmain, ?_⟩
  have hchild : s.childIdeas b.id = [] := by
    apply List.filter_eq_nil_iff.mpr
    intro i hi
    simpa using hno i hi
  apply List.mem_map.mpr
  exact ⟨b, hb, by rw [hchild]; rfl⟩

/-- Witness for C7's conditional part: in a store whose second box has no
children, the box list carries that box with an empty ideas list. -/
theorem getBoxes_spec_witness :
    getBoxes mismatchStore = .success 200 (mismatchStore.boxes.map fun b =>
      { id := b.id, title := b.title, description := b.description,
        ideas := (mismatchStore.childIdeas b.id).map toIdeaResponse }) ∧
    ∃ body, getBoxes mismatchStore = .success 200 body ∧
      ({ id := 2, title := "Work", description := "",
         ideas := ([] : List IdeaResponse) } : BoxResponse) ∈ body := by
  have h := getBoxes_spec mismatchStore
  exact ⟨h.1, h.2 { id := 2, title := "Work", description := "" } (by decide) (by decide)⟩

/-- C8: deleteBox on an id with no stored box answers 404 "box not found" and
leaves the store unchanged; after a successful deleteBox of a stored box, a
repeated deleteBox of the same id answers 404 "box not found" and leaves the
post-delete store unchanged: success is never repeated. -/
theorem deleteBox_not_idempotent_success (s : Store) (id : Nat) :
    (s.findBox id = none → deleteBox s id = (.failure 404 "box not found", s)) ∧
    (s.WF → ∀ b ∈ s.boxes, b.id = id →
      (deleteBox s id).1 = .success 204 () ∧
      deleteBox (deleteBox s id).2 id =
        (.failure 404 "box not found", (deleteBox s id).2)) := by
  constructor
  · intro h
    simp [deleteBox, deleteBoxWithFault, h]
  · rintro hwf b hb rfl
    have hfind : s.findBox b.id = some b := findBox_of_mem hwf hb
    have hdel : deleteBox s b.id =
        (.success 204 (),
         { s with
           boxes := s.boxes.filter (fun x => !(x.id == b.id)),
           ideas := s.ideas.filter (fun i => !(i.boxId == b.id)) }) := by
      simp [deleteBox, deleteBoxWithFault, hfind, deleteIdeasWhere]
    rw [hdel]
    have hnone :
        (Store.mk (s.boxes.filter (fun x => !(x.id == b.id)))
          (s.ideas.filter (fun i => !(i.boxId == b.id))) s.nextBoxId s.nextIdeaId).findBox b.id
          = none := by
      apply findBox_eq_none
      intro x hx
      have hmem := List.mem_filter.mp hx
      simpa using hmem.2
    exact ⟨rfl, by simp [deleteBox, deleteBoxWithFault, hnone]⟩

/-- Witness for C8: deleting box id 7 (absent) fails, and deleting box id 1
succeeds once then fails on repetition. -/
theorem deleteBox_not_idempotent_success_witness :
    (deleteBox exStore 7 = (.failure 404 "box not found", exStore)) ∧
    (deleteBox exStore 1).1 = .success 204 () ∧
    deleteBox (deleteBox exStore 1).2 1 =
      (.failure 404 "box not found", (deleteBox exStore 1).2) := by
  have h := deleteBox_not_idempotent_success exStore 7
  have h1 := deleteBox_not_idempotent_success exStore 1
  exact ⟨h.1 (by decide), h1.2 (by decide) exBox (by decide) (by decide)⟩

/-- C9: in createBoxIdea and updateBoxIdea the body is bound before the parent
box is looked up: a body that fails binding (unparseable, or missing or empty
title) is answered with the 400 binding error even when the path names an
absent box, never with the 404. -/
theorem idea_body_validation_before_box_check (s : Store) (boxId ideaId : Nat)
    (raw : Option RawBody)
    (hinvalid : raw = none ∨ ∃ r, raw = some r ∧ (r.title = none ∨ r.title = some ""))
    (_habs : s.findBox boxId = none) :
    createBoxIdea s boxId raw = (.failure 400 "binding error", s) ∧
    updateBoxIdea s boxId ideaId raw = (.failure 400 "binding error", s) := by
  have hbind : bindIdeaRequest raw = none := by
    rcases hinvalid with rfl | ⟨r, rfl, h | h⟩
    · rfl
    · simp [bindIdeaRequest, h]
    · simp [bindIdeaRequest, h]
  simp [createBoxIdea, updateBoxIdea, hbind]

/-- Witness for C9: a missing-title body under the absent box id 7 yields the
400 binding error from both handlers. -/
theorem idea_body_validation_before_box_check_witness :
    createBoxIdea exStore 7 (some { title := none, description := some "d" }) =
      (.failure 400 "binding error", exStore) ∧
    updateBoxIdea exStore 7 1 (some { title := none, description := some "d" }) =
      (.failure 400 "binding error", exStore) :=
  idea_body_validation_before_box_check exStore 7 1
    (some { title := none, description := some "d" })
    (Or.inr ⟨_, rfl, Or.inl rfl⟩) (by decide)

/-- C10: the deleteBox handler discards the result of the child-idea deletion:
when that primitive fails with a storage error, the handler still answers 204,
the box row is gone, and the child ideas are all still stored - the cascade is
not atomic and the failure is never surfaced. -/
theorem deleteBox_discards_child_delete_failure (s : Store) (b : Box)
    (hwf : s.WF) (hb : b ∈ s.boxes) :
    (deleteIdeasWhere s b.id true).2 = .error "storage error" ∧
    (deleteBoxWithFault s b.id true).1 = .success 204 () ∧
    (deleteBoxWithFault s b.id true).2.ideas = s.ideas ∧
    (deleteBoxWithFault s b.id true).2.findBox b.id = none := by
  have hfind : s.findBox b.id = some b := findBox_of_mem hwf hb
  have hdel : deleteBoxWithFault s b.id true =
      (.success 204 (), { s with boxes := s.boxes.filter (fun x => !(x.id == b.id)) }) := by
    simp [deleteBoxWithFault, hfind, deleteIdeasWhere]
  rw [hdel]
  refine ⟨rfl, rfl, rfl, ?_⟩
  apply findBox_eq_none
  intro x hx
  have hmem := List.mem_filter.mp hx
  simpa using hmem.2

/-- Witness for C10 at the concrete store. -/
theorem deleteBox_discards_child_delete_failure_witness :
    (deleteIdeasWhere exStore exBox.id true).2 = .error "storage error" ∧
    (deleteBoxWithFault exStore exBox.id true).1 = .success 204 () ∧
    (deleteBoxWithFault exStore exBox.id true).2.ideas = exStore.ideas ∧
    (deleteBoxWithFault exStore exBox.id true).2.findBox exBox.id = none :=
  deleteBox_discards_child_delete_failure exStore exBox (by decide) (by decide)
